import Mathlib

/-!
Shallow embedding of `homework.py` (Linkprof/homework_bot): a Telegram bot that
polls a homework-review API, validates the response, maps homework statuses to
human-readable messages and forwards them, deduplicated, to a chat.

External effects (the HTTP request and the Telegram send) are modelled by
explicit outcome values supplied by the environment; everything the program
itself computes is translated directly from the source.
-/

namespace HomeworkBot

/-- Python values as they occur in this program: JSON-decoded API responses,
strings, integers, lists, string-keyed dicts and `None`. -/
inductive PyVal where
  | str (s : String)
  | int (n : Int)
  | list (xs : List PyVal)
  | dict (d : List (String × PyVal))
  | none
  deriving Repr

/-- Python type name, as it appears in interpreter error messages. -/
def pyTypeName : PyVal → String
  | .str _ => "str"
  | .int _ => "int"
  | .list _ => "list"
  | .dict _ => "dict"
  | .none => "NoneType"

mutual
/-- Python `repr()` of a value, used when values are rendered inside
containers.  String repr is modelled as always using single quotes; CPython's
switch to double quotes for strings containing a quote is not modelled (no
value in this development contains one). -/
def pyRepr : PyVal → String
  | .str s => "'" ++ s ++ "'"
  | .int n => toString n
  | .list xs => "[" ++ String.intercalate ", " (pyReprList xs) ++ "]"
  | .dict d => "\x7b" ++ String.intercalate ", " (pyReprDict d) ++ "\x7d"
  | .none => "None"

def pyReprList : List PyVal → List String
  | [] => []
  | x :: xs => pyRepr x :: pyReprList xs

def pyReprDict : List (String × PyVal) → List String
  | [] => []
  | (k, v) :: xs => ("'" ++ k ++ "': " ++ pyRepr v) :: pyReprDict xs
end

/-- Python `str()` of a value, as interpolated by f-strings. -/
def pyStr : PyVal → String
  | .str s => s
  | v => pyRepr v

/-- The exceptions this program can raise.  `httpResponseError` carries the
three formatted strings of the tuple built in `get_api_answer`. -/
inductive PyError where
  | keyError (msg : String)
  | typeError (msg : String)
  | statusUnknown (msg : String)
  | telegramError (msg : String)
  | connectionError (msg : String)
  | attributeError (msg : String)
  | httpResponseError (params status content : String)
  deriving Repr, DecidableEq

/-- Python `str()` of an exception, as interpolated by
`f'Сбой в работе программы: {error}'`.  `KeyError` stringifies as the repr of
its argument; an exception constructed from a tuple stringifies as the tuple. -/
def errStr : PyError → String
  | .keyError m => "'" ++ m ++ "'"
  | .typeError m => m
  | .statusUnknown m => m
  | .telegramError m => m
  | .connectionError m => m
  | .attributeError m => m
  | .httpResponseError a b c => "('" ++ a ++ "', '" ++ b ++ "', '" ++ c ++ "')"

def RETRY_PERIOD : Nat := 600

def ENDPOINT : String := "https://practicum.yandex.ru/api/user_api/homework_statuses/"

def HOMEWORK_VERDICTS : List (String × String) :=
  [("approved", "Работа проверена: ревьюеру всё понравилось. Ура!"),
   ("reviewing", "Работа взята на проверку ревьюером."),
   ("rejected", "Работа проверена: у ревьюера есть замечания.")]

/-- Python truthiness of an optional string (an `os.getenv` result):
`None` and the empty string are falsy. -/
def pyTruthyStr : Option String → Bool
  | Option.none => false
  | some s => decide (s ≠ "")

/-- `check_tokens`: `all([PRACTICUM_TOKEN, TELEGRAM_TOKEN, TELEGRAM_CHAT_ID])`. -/
def check_tokens (practicum telegramTok chatId : Option String) : Bool :=
  pyTruthyStr practicum && pyTruthyStr telegramTok && pyTruthyStr chatId

/-- Outcome of the Telegram `bot.send_message` call, supplied by the
environment: success, or a `telegram.error.TelegramError` with message `msg`. -/
inductive SendOutcome where
  | ok
  | err (msg : String)
  deriving Repr, DecidableEq

/-- `send_message`: on a Telegram failure the error is wrapped in
`TelegramError(f'Не удалось отправить сообщение из-за ошибки {error}')`. -/
def send_message (outcome : SendOutcome) (_msg : String) : Except PyError Unit :=
  match outcome with
  | .ok => .ok ()
  | .err e =>
      .error (.telegramError ("Не удалось отправить сообщение из-за ошибки " ++ e))

/-- What `requests.get` produced: a response object, or a
`requests.exceptions.RequestException` with message `msg`. -/
structure HttpResponse where
  status_code : Nat
  url : String
  text : String
  body : PyVal
  deriving Repr

inductive HttpOutcome where
  | success (r : HttpResponse)
  | transportError (msg : String)
  deriving Repr

/-- `get_api_answer`: 200 → parsed body; other status → `HttpResponseError`
with the request URL, status code and body text; transport failure →
`ConnectionError` wrapping the cause.  The timestamp only feeds the request
parameters, so it does not affect the modelled outcome. -/
def get_api_answer (_timestamp : PyVal) (outcome : HttpOutcome) : Except PyError PyVal :=
  match outcome with
  | .success r =>
      if r.status_code = 200 then .ok r.body
      else
        .error (.httpResponseError
          ("Параметры запроса: " ++ r.url)
          ("Статус ответа API: " ++ toString r.status_code)
          ("Контент ответа: " ++ r.text))
  | .transportError e =>
      .error (.connectionError
        ("Эндпоинт " ++ ENDPOINT ++ ", недоступен! Ошибка: " ++ (e ++ ".")))

/-- `check_response`: dict check, `homeworks` key, `current_date` key, then
the `homeworks`-is-a-list check, in source order. -/
def check_response (response : PyVal) : Except PyError (List PyVal) :=
  match response with
  | .dict d =>
    match d.lookup "homeworks" with
    | Option.none => .error (.keyError "Нет нужного ключа homeworks в ответе API!")
    | some hv =>
      match d.lookup "current_date" with
      | Option.none => .error (.keyError "Нет нужного ключа current_date в ответе API!")
      | some _ =>
        match hv with
        | .list hs => .ok hs
        | _ => .error (.typeError "Формат данных по ключу \"homeworks\", не является списком!")
  | _ => .error (.typeError "Ответ API не являтеся словарем!")

/-- The success message of `parse_status`
(`f'Изменился статус проверки работы "{homework_name}". {verdict}'`),
right-associated to ease reasoning about its leading characters. -/
def statusMessage (name verdict : String) : String :=
  "Изменился статус проверки работы \"" ++ (name ++ ("\". " ++ verdict))

/-- `HOMEWORK_VERDICTS.get(status_work)`: dict lookup keyed by strings; any
non-string (hashable) key is simply absent. -/
def verdictFor : PyVal → Option String
  | .str s => HOMEWORK_VERDICTS.lookup s
  | _ => Option.none

/-- `parse_status` on a mapping record: key checks in source order, then the
verdict lookup; an unrecognized status raises `StatusUnknown`. -/
def parse_status (hw : List (String × PyVal)) : Except PyError String :=
  match hw.lookup "homework_name" with
  | Option.none => .error (.keyError "В ответе API нет ключа \"homework_name\".")
  | some homework_name =>
    match hw.lookup "status" with
    | Option.none => .error (.keyError "В ответе API отсутстует ключ \"status\".")
    | some status_work =>
      match verdictFor status_work with
      | some verdict => .ok (statusMessage (pyStr homework_name) verdict)
      | Option.none =>
          .error (.statusUnknown ("Неизвестный статус домашней работы: " ++ pyStr status_work))

/-- Models `datetime.fromtimestamp`: renders an integer epoch value (the
rendering itself is library behaviour, abstracted to the decimal form of the
value); a non-numeric argument raises `TypeError`, as `datetime` does. -/
def fromtimestamp : PyVal → Except PyError String
  | .int t => .ok (toString t)
  | _ => .error (.typeError "an integer is required (got a non-numeric value)")

/-- The "no status change" message synthesized for an empty `homeworks` list,
with the source's exact literal concatenation (no space before `до`),
right-associated to ease reasoning about its leading characters. -/
def mkNoChange (dt : String) : String :=
  "За период от " ++ (dt ++ "до настоящего момента изменения статуса домашней работы нет.")

/-- `f'Сбой в работе программы: {error}'`, the failure notification text. -/
def failMessage (e : PyError) : String :=
  "Сбой в работе программы: " ++ errStr e

/-- The two loop-local variables of `main`.  The timestamp is a `PyVal`, not
an `Int`, because line 149 stores whatever value the response carries under
`current_date` without a type check. -/
structure LoopState where
  timestamp : PyVal
  old_status_homework : String
  deriving Repr

/-- Per-cycle environment: what the HTTP fetch produced, and the outcomes of
the first and (if reached) second `send_message` call of the cycle. -/
structure CycleEnv where
  fetch : HttpOutcome
  send1 : SendOutcome
  send2 : SendOutcome
  deriving Repr

/-- How a cycle ends: reach the `finally` sleep and continue with a new state,
or let an exception raised inside the `except` handler propagate, halting the
loop (the `finally` sleep still runs first). -/
inductive CycleResult where
  | next (st : LoopState)
  | halt (e : PyError) (st : LoopState)
  deriving Repr

/-- Observable record of one cycle: its result, every `send_message`
invocation in order, the successful and the raising ones among them, every
message compared against `old_status_homework` (the deduplication gate), and
how many times `parse_status` was invoked. -/
structure CycleOutput where
  result : CycleResult
  sends : List String
  sentOk : List String
  sendFailed : List String
  gated : List String
  parseCalls : Nat
  deriving Repr

/-- Lines 148–160 of the `try` block: fetch, the `current_date` window update
(line 149, before validation), validation, and message synthesis.  A response
that is not a mapping makes `response.get` raise `AttributeError` before
validation; a first record that is not a mapping makes the `in` check inside
`parse_status` raise — modelled uniformly as `TypeError` (exact for numeric
and `None` records; string and list records, which nothing here exercises,
would instead hit Python's membership semantics). -/
structure TryOut where
  ts : PyVal
  msg : Except PyError String
  parseCalls : Nat

def tryBody (fetch : HttpOutcome) (st : LoopState) : TryOut :=
  match get_api_answer st.timestamp fetch with
  | .error e => ⟨st.timestamp, .error e, 0⟩
  | .ok resp =>
    match resp with
    | .dict d =>
      let ts := (d.lookup "current_date").getD st.timestamp
      match check_response (.dict d) with
      | .error e => ⟨ts, .error e, 0⟩
      | .ok [] => ⟨ts, (fromtimestamp ts).map mkNoChange, 0⟩
      | .ok (hw :: _) =>
        match hw with
        | .dict hwd => ⟨ts, parse_status hwd, 1⟩
        | v => ⟨ts, .error (.typeError ("argument of type '" ++ pyTypeName v ++ "' is not iterable")), 1⟩
    | v => ⟨st.timestamp, .error (.attributeError ("'" ++ pyTypeName v ++ "' object has no attribute 'get'")), 0⟩

/-- Lines 167–175, the `except Exception` handler: format the failure
message, gate it against the last-sent text, send it if it differs; a raise
from this very send propagates and halts the loop.  `pre` holds the sends
already attempted in the `try` block (at most the one failed status send). -/
def handlerStep (e : PyError) (sendO : SendOutcome) (ts : PyVal) (old : String)
    (pre : List String) (pc : Nat) : CycleOutput :=
  let f := failMessage e
  if f = old then
    ⟨.next ⟨ts, old⟩, pre, [], pre, pre ++ [f], pc⟩
  else
    match send_message sendO f with
    | .ok _ => ⟨.next ⟨ts, f⟩, pre ++ [f], [f], pre, pre ++ [f], pc⟩
    | .error e2 => ⟨.halt e2 ⟨ts, old⟩, pre ++ [f], [], pre ++ [f], pre ++ [f], pc⟩

/-- Lines 161–175: the deduplication gate on the synthesized message, the
status send, and the handler for any exception of the cycle. -/
def gateStep (send1 send2 : SendOutcome) (t : TryOut) (old : String) : CycleOutput :=
  match t.msg with
  | .ok m =>
    if m = old then
      ⟨.next ⟨t.ts, old⟩, [], [], [], [m], t.parseCalls⟩
    else
      match send_message send1 m with
      | .ok _ => ⟨.next ⟨t.ts, m⟩, [m], [m], [], [m], t.parseCalls⟩
      | .error e1 => handlerStep e1 send2 t.ts old [m] t.parseCalls
  | .error e => handlerStep e send1 t.ts old [] t.parseCalls

/-- One cycle of the `while True` loop of `main`. -/
def runCycle (env : CycleEnv) (st : LoopState) : CycleOutput :=
  gateStep env.send1 env.send2 (tryBody env.fetch st) st.old_status_homework

/-- The state a cycle leaves behind (both a continuing and a halting cycle
leave a definite final value of the two loop variables). -/
def resultState : CycleResult → LoopState
  | .next st => st
  | .halt _ st => st

/-- Run consecutive cycles, accumulating all `send_message` invocations and
stopping if a cycle halts the loop. -/
def runCycles : List CycleEnv → LoopState → (List String × CycleResult)
  | [], st => ([], .next st)
  | e :: es, st =>
    match (runCycle e st).result with
    | .next st' =>
        let r := runCycles es st'
        ((runCycle e st).sends ++ r.1, r.2)
    | .halt err st' => ((runCycle e st).sends, .halt err st')

/-- Startup of `main` (lines 138–144): the credential check with its fatal
`sys.exit`, then the initial loop state — the current time as an integer and
an empty last-notification string.  `.exited` models `sys.exit(message)`,
which terminates the process with a nonzero status, before any fetch,
validation or notification work. -/
inductive MainStart where
  | exited (msg : String)
  | started (st : LoopState)
  deriving Repr

def mainStartup (practicum telegramTok chatId : Option String) (now : Int) : MainStart :=
  if check_tokens practicum telegramTok chatId then
    .started ⟨.int now, ""⟩
  else
    .exited "Отсутствуют одна или несколько переменных окружения"

/-! ### Helper lemmas -/

/-- Two string concatenations whose left parts start with different characters
are different strings. -/
theorem append_ne_append_of_head (c₁ c₂ : Char) (p q s t : String)
    (hp : p.data.head? = some c₁) (hq : q.data.head? = some c₂) (hne : c₁ ≠ c₂) :
    p ++ s ≠ q ++ t := by
  intro h
  have hd : (p ++ s).data = (q ++ t).data := congrArg String.data h
  rw [String.data_append, String.data_append] at hd
  cases hdp : p.data with
  | nil => rw [hdp] at hp; exact Option.noConfusion hp
  | cons a l =>
    cases hdq : q.data with
    | nil => rw [hdq] at hq; exact Option.noConfusion hq
    | cons b l' =>
      rw [hdp] at hp
      rw [hdq] at hq
      rw [hdp, hdq] at hd
      simp only [List.head?_cons, Option.some.injEq] at hp hq
      simp only [List.cons_append, List.cons.injEq] at hd
      exact hne (hp ▸ hq ▸ hd.1)

/-- A "no status change" message never coincides with a failure message. -/
theorem mkNoChange_ne_fail (dt : String) (e : PyError) :
    mkNoChange dt ≠ failMessage e := by
  unfold mkNoChange failMessage
  exact append_ne_append_of_head 'З' 'С' _ _ _ _ (by decide) (by decide) (by decide)

/-- A status-change message never coincides with a failure message. -/
theorem statusMessage_ne_fail (n v : String) (e : PyError) :
    statusMessage n v ≠ failMessage e := by
  unfold statusMessage failMessage
  exact append_ne_append_of_head 'И' 'С' _ _ _ _ (by decide) (by decide) (by decide)

/-- A successful `parse_status` result is a status-change message. -/
theorem parse_status_ok_shape (hw : List (String × PyVal)) (m : String)
    (h : parse_status hw = .ok m) : ∃ n v, m = statusMessage n v := by
  unfold parse_status at h
  cases hname : hw.lookup "homework_name" with
  | none => rw [hname] at h; simp at h
  | some nameV =>
    rw [hname] at h
    dsimp only at h
    cases hst : hw.lookup "status" with
    | none => rw [hst] at h; simp at h
    | some sv =>
      rw [hst] at h
      dsimp only at h
      cases hv : verdictFor sv with
      | none => rw [hv] at h; simp at h
      | some v =>
        rw [hv] at h
        simp only [Except.ok.injEq] at h
        exact ⟨pyStr nameV, v, h.symm⟩

/-- A message the `try` block hands to the deduplication gate is either a
"no status change" message or a status-change message. -/
theorem tryBody_ok_shape (fetch : HttpOutcome) (st : LoopState) (ts : PyVal)
    (m : String) (pc : Nat) (h : tryBody fetch st = ⟨ts, .ok m, pc⟩) :
    (∃ dt, m = mkNoChange dt) ∨ ∃ n v, m = statusMessage n v := by
  unfold tryBody at h
  cases hga : get_api_answer st.timestamp fetch with
  | error e =>
    rw [hga] at h
    simp only [TryOut.mk.injEq] at h
    exact absurd h.2.1 (by simp)
  | ok resp =>
    rw [hga] at h
    cases resp with
    | dict d =>
      dsimp only at h
      cases hcr : check_response (.dict d) with
      | error e =>
        rw [hcr] at h
        simp only [TryOut.mk.injEq] at h
        exact absurd h.2.1 (by simp)
      | ok hs =>
        rw [hcr] at h
        cases hs with
        | nil =>
          dsimp only at h
          cases hft : fromtimestamp ((d.lookup "current_date").getD st.timestamp) with
          | error e =>
            rw [hft] at h
            simp only [Except.map, TryOut.mk.injEq] at h
            exact absurd h.2.1 (by simp)
          | ok dt =>
            rw [hft] at h
            simp only [Except.map, TryOut.mk.injEq, Except.ok.injEq] at h
            exact Or.inl ⟨dt, h.2.1.symm⟩
        | cons hw hs' =>
          cases hw with
          | dict hwd =>
            dsimp only at h
            simp only [TryOut.mk.injEq] at h
            exact Or.inr (parse_status_ok_shape hwd m h.2.1)
          | str s =>
            simp only [TryOut.mk.injEq] at h
            exact absurd h.2.1 (by simp)
          | int n =>
            simp only [TryOut.mk.injEq] at h
            exact absurd h.2.1 (by simp)
          | list l =>
            simp only [TryOut.mk.injEq] at h
            exact absurd h.2.1 (by simp)
          | none =>
            simp only [TryOut.mk.injEq] at h
            exact absurd h.2.1 (by simp)
    | str s =>
      simp only [TryOut.mk.injEq] at h
      exact absurd h.2.1 (by simp)
    | int n =>
      simp only [TryOut.mk.injEq] at h
      exact absurd h.2.1 (by simp)
    | list l =>
      simp only [TryOut.mk.injEq] at h
      exact absurd h.2.1 (by simp)
    | none =>
      simp only [TryOut.mk.injEq] at h
      exact absurd h.2.1 (by simp)

/-- Exhaustive enumeration of the three ways the `except` handler can end. -/
theorem handlerStep_cases (e : PyError) (sendO : SendOutcome) (ts : PyVal) (old : String)
    (pre : List String) (pc : Nat) :
    (failMessage e = old ∧
      handlerStep e sendO ts old pre pc
        = ⟨.next ⟨ts, old⟩, pre, [], pre, pre ++ [failMessage e], pc⟩)
    ∨ (failMessage e ≠ old ∧ sendO = .ok ∧
      handlerStep e sendO ts old pre pc
        = ⟨.next ⟨ts, failMessage e⟩, pre ++ [failMessage e], [failMessage e], pre,
            pre ++ [failMessage e], pc⟩)
    ∨ (∃ e2, failMessage e ≠ old ∧ sendO = .err e2 ∧
      handlerStep e sendO ts old pre pc
        = ⟨.halt (.telegramError ("Не удалось отправить сообщение из-за ошибки " ++ e2)) ⟨ts, old⟩,
            pre ++ [failMessage e], [], pre ++ [failMessage e], pre ++ [failMessage e], pc⟩) := by
  by_cases hf : failMessage e = old
  · exact Or.inl ⟨hf, by simp [handlerStep, hf]⟩
  · cases sendO with
    | ok => exact Or.inr (Or.inl ⟨hf, rfl, by simp [handlerStep, hf, send_message]⟩)
    | err e2 => exact Or.inr (Or.inr ⟨e2, hf, rfl, by simp [handlerStep, hf, send_message]⟩)

/-- Exhaustive enumeration of the four ways a cycle can pass through the
deduplication gate and the status send. -/
theorem gateStep_cases (s1 s2 : SendOutcome) (t : TryOut) (old : String) :
    (∃ m, t.msg = .ok m ∧ m = old ∧
      gateStep s1 s2 t old = ⟨.next ⟨t.ts, old⟩, [], [], [], [m], t.parseCalls⟩)
    ∨ (∃ m, t.msg = .ok m ∧ m ≠ old ∧ s1 = .ok ∧
      gateStep s1 s2 t old = ⟨.next ⟨t.ts, m⟩, [m], [m], [], [m], t.parseCalls⟩)
    ∨ (∃ m e1, t.msg = .ok m ∧ m ≠ old ∧ s1 = .err e1 ∧
      gateStep s1 s2 t old
        = handlerStep (.telegramError ("Не удалось отправить сообщение из-за ошибки " ++ e1))
            s2 t.ts old [m] t.parseCalls)
    ∨ (∃ e, t.msg = .error e ∧
      gateStep s1 s2 t old = handlerStep e s1 t.ts old [] t.parseCalls) := by
  cases ht : t.msg with
  | error e =>
    refine Or.inr (Or.inr (Or.inr ⟨e, rfl, ?_⟩))
    unfold gateStep
    rw [ht]
  | ok m =>
    by_cases hm : m = old
    · refine Or.inl ⟨m, rfl, hm, ?_⟩
      unfold gateStep
      rw [ht]
      simp [hm]
    · cases s1 with
      | ok =>
        refine Or.inr (Or.inl ⟨m, rfl, hm, rfl, ?_⟩)
        unfold gateStep
        rw [ht]
        simp [hm, send_message]
      | err e1 =>
        refine Or.inr (Or.inr (Or.inl ⟨m, e1, rfl, hm, rfl, ?_⟩))
        unfold gateStep
        rw [ht]
        simp [hm, send_message]

theorem runCycle_eq (env : CycleEnv) (st : LoopState) :
    runCycle env st
      = gateStep env.send1 env.send2 (tryBody env.fetch st) st.old_status_homework := rfl

/-! ### Claims -/

/-- Claim C1, counterexample: the fixed closed mapping `HOMEWORK_VERDICTS`
recognizes exactly the three status keys `approved`, `reviewing`, `rejected` —
there is no fourth recognized status key. -/
theorem c1_counterexample :
    HOMEWORK_VERDICTS.map Prod.fst = ["approved", "reviewing", "rejected"]
    ∧ HOMEWORK_VERDICTS.length ≠ 4 := by
  decide

/-- Claim C1 (amended: the closed mapping has three recognized status keys,
not four): for every homework record containing both `homework_name` and
`status` keys with a string status, `parse_status` produces exactly the message of `statusMessage`
(the work's name inside the fixed phrase, followed by the verdict phrase
paired to the status in `HOMEWORK_VERDICTS`), and fails with a
`StatusUnknown` error on any unrecognized status string. -/
theorem c1_parse_status (hw : List (String × PyVal)) (nameV : PyVal) (s : String)
    (hname : hw.lookup "homework_name" = some nameV)
    (hstatus : hw.lookup "status" = some (.str s)) :
    (∀ v, HOMEWORK_VERDICTS.lookup s = some v →
      parse_status hw = .ok (statusMessage (pyStr nameV) v))
    ∧ (HOMEWORK_VERDICTS.lookup s = Option.none →
      parse_status hw = .error (.statusUnknown ("Неизвестный статус домашней работы: " ++ s))) := by
  unfold parse_status
  rw [hname, hstatus]
  constructor
  · intro v hv
    simp only [verdictFor, hv]
  · intro hv
    simp only [verdictFor, hv, pyStr]

/-- Claim C1, witness: a record with status `approved` yields the exact paired
message, and status `bogus` fails with the unknown-status error. -/
theorem c1_witness :
    parse_status [("homework_name", .str "hw1"), ("status", .str "approved")]
      = .ok "Изменился статус проверки работы \"hw1\". Работа проверена: ревьюеру всё понравилось. Ура!"
    ∧ parse_status [("homework_name", .str "hw2"), ("status", .str "bogus")]
      = .error (.statusUnknown "Неизвестный статус домашней работы: bogus") := by
  constructor
  · exact (c1_parse_status [("homework_name", .str "hw1"), ("status", .str "approved")]
      (.str "hw1") "approved" rfl rfl).1 "Работа проверена: ревьюеру всё понравилось. Ура!" rfl
  · exact (c1_parse_status [("homework_name", .str "hw2"), ("status", .str "bogus")]
      (.str "hw2") "bogus" rfl rfl).2 rfl

/-- Claim C2: `check_response` rejects a non-mapping with a type-mismatch
error, then a missing `homeworks` key, then a missing `current_date` key,
then a non-list `homeworks` value, in that order, and otherwise returns the
(possibly empty) `homeworks` list. -/
theorem c2_check_response :
    (∀ v : PyVal, (∀ d, v ≠ .dict d) →
      check_response v = .error (.typeError "Ответ API не являтеся словарем!"))
    ∧ (∀ d : List (String × PyVal), d.lookup "homeworks" = Option.none →
      check_response (.dict d) = .error (.keyError "Нет нужного ключа homeworks в ответе API!"))
    ∧ (∀ (d : List (String × PyVal)) hv, d.lookup "homeworks" = some hv →
      d.lookup "current_date" = Option.none →
      check_response (.dict d) = .error (.keyError "Нет нужного ключа current_date в ответе API!"))
    ∧ (∀ (d : List (String × PyVal)) hv w, d.lookup "homeworks" = some hv →
      d.lookup "current_date" = some w → (∀ l, hv ≠ .list l) →
      check_response (.dict d) = .error (.typeError "Формат данных по ключу \"homeworks\", не является списком!"))
    ∧ (∀ (d : List (String × PyVal)) l w, d.lookup "homeworks" = some (.list l) →
      d.lookup "current_date" = some w →
      check_response (.dict d) = .ok l) := by
  refine ⟨?_, ?_, ?_, ?_, ?_⟩
  · intro v h
    cases v with
    | dict d => exact absurd rfl (h d)
    | str s => rfl
    | int n => rfl
    | list l => rfl
    | none => rfl
  · intro d h
    unfold check_response
    dsimp only
    rw [h]
  · intro d hv h1 h2
    unfold check_response
    dsimp only
    rw [h1, h2]
  · intro d hv w h1 h2 h3
    unfold check_response
    dsimp only
    rw [h1, h2]
    cases hv with
    | list l => exact absurd rfl (h3 l)
    | str s => rfl
    | int n => rfl
    | dict d' => rfl
    | none => rfl
  · intro d l w h1 h2
    unfold check_response
    dsimp only
    rw [h1, h2]

/-- Claim C2, witness: concrete responses hitting each check in order, and a
successful extraction of an empty `homeworks` list. -/
theorem c2_witness :
    check_response (.list []) = .error (.typeError "Ответ API не являтеся словарем!")
    ∧ check_response (.dict [("current_date", .int 1)])
      = .error (.keyError "Нет нужного ключа homeworks в ответе API!")
    ∧ check_response (.dict [("homeworks", .list [])])
      = .error (.keyError "Нет нужного ключа current_date в ответе API!")
    ∧ check_response (.dict [("homeworks", .int 3), ("current_date", .int 1)])
      = .error (.typeError "Формат данных по ключу \"homeworks\", не является списком!")
    ∧ check_response (.dict [("homeworks", .list []), ("current_date", .int 1)])
      = .ok [] :=
  ⟨c2_check_response.1 _ (fun _ h => PyVal.noConfusion h),
   c2_check_response.2.1 _ rfl,
   c2_check_response.2.2.1 _ _ rfl rfl,
   c2_check_response.2.2.2.1 _ _ _ rfl rfl (fun _ h => PyVal.noConfusion h),
   c2_check_response.2.2.2.2 _ _ _ rfl rfl⟩

/-- Claim C7: `get_api_answer` returns the parsed body on HTTP 200, fails
with an `HttpResponseError` carrying the request URL, status code and body
text on any other status, and fails with a `ConnectionError` wrapping the
underlying cause on a transport failure. -/
theorem c7_get_api_answer (ts : PyVal) :
    (∀ r : HttpResponse, r.status_code = 200 →
      get_api_answer ts (.success r) = .ok r.body)
    ∧ (∀ r : HttpResponse, r.status_code ≠ 200 →
      get_api_answer ts (.success r) = .error (.httpResponseError
        ("Параметры запроса: " ++ r.url)
        ("Статус ответа API: " ++ toString r.status_code)
        ("Контент ответа: " ++ r.text)))
    ∧ (∀ e, get_api_answer ts (.transportError e) = .error (.connectionError
        ("Эндпоинт " ++ ENDPOINT ++ ", недоступен! Ошибка: " ++ (e ++ ".")))) := by
  refine ⟨?_, ?_, ?_⟩
  · intro r h
    simp [get_api_answer, h]
  · intro r h
    simp [get_api_answer, h]
  · intro e
    rfl

/-- Claim C7, witness: a 200 response returns its body, a 503 response fails
with the diagnostic `HttpResponseError`, and a timeout fails with a
`ConnectionError` naming the endpoint and the cause. -/
theorem c7_witness :
    get_api_answer (.int 0) (.success ⟨200, ENDPOINT, "", .dict []⟩) = .ok (.dict [])
    ∧ get_api_answer (.int 0) (.success ⟨503, ENDPOINT, "oops", .none⟩)
      = .error (.httpResponseError
          ("Параметры запроса: " ++ ENDPOINT) "Статус ответа API: 503" "Контент ответа: oops")
    ∧ get_api_answer (.int 0) (.transportError "timeout")
      = .error (.connectionError ("Эндпоинт " ++ ENDPOINT ++ ", недоступен! Ошибка: timeout.")) :=
  ⟨(c7_get_api_answer _).1 _ rfl,
   (c7_get_api_answer _).2.1 _ (by decide),
   (c7_get_api_answer _).2.2 _⟩

/-- Claim C9: `check_tokens` is true iff all three secrets are present and
non-empty (it is a pure function, so it has no side effects), and when it is
false, `main` terminates at once through `sys.exit` with the diagnostic
message — the loop (and hence any fetch, validation or notification work) is
never entered; when it is true, the loop starts with an integer poll-window
and an empty last-notification string. -/
theorem c9_check_tokens (p t c : Option String) (now : Int) :
    (check_tokens p t c = true ↔
      ((∃ s, p = some s ∧ s ≠ "") ∧ (∃ s, t = some s ∧ s ≠ "")
        ∧ (∃ s, c = some s ∧ s ≠ "")))
    ∧ (check_tokens p t c = false →
      mainStartup p t c now = .exited "Отсутствуют одна или несколько переменных окружения")
    ∧ (check_tokens p t c = true →
      mainStartup p t c now = .started ⟨.int now, ""⟩) := by
  refine ⟨?_, ?_, ?_⟩
  · cases p <;> cases t <;> cases c <;> simp [check_tokens, pyTruthyStr, and_assoc]
  · intro h
    simp [mainStartup, h]
  · intro h
    simp [mainStartup, h]

/-- Claim C9, witness: all three secrets present and non-empty passes the
check and enters the loop; a missing one exits fatally with the diagnostic. -/
theorem c9_witness :
    check_tokens (some "a") (some "b") (some "c") = true
    ∧ mainStartup (some "a") (some "b") (some "c") 7 = .started ⟨.int 7, ""⟩
    ∧ mainStartup Option.none (some "b") (some "c") 7
      = .exited "Отсутствуют одна или несколько переменных окружения" :=
  ⟨(c9_check_tokens (some "a") (some "b") (some "c") 7).1.mpr
      ⟨⟨"a", rfl, by decide⟩, ⟨"b", rfl, by decide⟩, ⟨"c", rfl, by decide⟩⟩,
   (c9_check_tokens (some "a") (some "b") (some "c") 7).2.2 rfl,
   (c9_check_tokens Option.none (some "b") (some "c") 7).2.1 rfl⟩

/-- Claim C4, counterexample: a cycle whose fetch gets HTTP 503 raises an
`HttpResponseError`; the handler catches it and attempts the failure
notification, but that delivery itself raises — and the resulting
`TelegramError` propagates out of the handler and halts the loop, contrary to
the claim that every error is caught and the loop always continues. -/
theorem c4_counterexample :
    (runCycle ⟨.success ⟨503, ENDPOINT, "err", .none⟩, .err "boom", .ok⟩ ⟨.int 5, ""⟩).result
      = .halt (.telegramError "Не удалось отправить сообщение из-за ошибки boom")
          ⟨.int 5, ""⟩ := by
  rfl

/-- Claim C4 (amended: every error raised inside a cycle is caught, logged and
turned into a deduplication-gated failure notification, and the loop proceeds
to its fixed sleep and next cycle — unless the failure-notification delivery
itself raises, in which case that `TelegramError` propagates after the sleep
and halts the loop; no other error halts it): when the notifier never raises,
every cycle continues; a halt can only carry a notifier error; and every error
of the `try` block gets its failure message to the deduplication gate. -/
theorem c4_loop_resilience (env : CycleEnv) (st : LoopState) :
    ((env.send1 = .ok ∧ env.send2 = .ok) → ∃ st', (runCycle env st).result = .next st')
    ∧ (∀ e st', (runCycle env st).result = .halt e st' →
        ∃ s, e = .telegramError ("Не удалось отправить сообщение из-за ошибки " ++ s))
    ∧ (∀ e, (tryBody env.fetch st).msg = .error e →
        failMessage e ∈ (runCycle env st).gated) := by
  rw [runCycle_eq]
  rcases gateStep_cases env.send1 env.send2 (tryBody env.fetch st) st.old_status_homework with
    ⟨m, hmsg, hm, heq⟩ | ⟨m, hmsg, hm, hs1, heq⟩ | ⟨m, e1, hmsg, hm, hs1, heq⟩ | ⟨e0, hmsg, heq⟩
  · rw [heq]
    refine ⟨fun _ => ⟨_, rfl⟩, fun e st' h => absurd h (by simp), fun e he => ?_⟩
    rw [hmsg] at he
    exact absurd he (by simp)
  · rw [heq]
    refine ⟨fun _ => ⟨_, rfl⟩, fun e st' h => absurd h (by simp), fun e he => ?_⟩
    rw [hmsg] at he
    exact absurd he (by simp)
  · rw [heq]
    refine ⟨fun hok => absurd hok.1 (by simp [hs1]), ?_, fun e he => ?_⟩
    · rcases handlerStep_cases (.telegramError ("Не удалось отправить сообщение из-за ошибки " ++ e1))
        env.send2 (tryBody env.fetch st).ts st.old_status_homework [m]
        (tryBody env.fetch st).parseCalls with ⟨_, hh⟩ | ⟨_, _, hh⟩ | ⟨e2, _, _, hh⟩
      · rw [hh]; intro e st' h; exact absurd h (by simp)
      · rw [hh]; intro e st' h; exact absurd h (by simp)
      · rw [hh]
        intro e st' h
        simp only [CycleResult.halt.injEq] at h
        exact ⟨e2, h.1.symm⟩
    · rw [hmsg] at he
      exact absurd he (by simp)
  · rw [heq]
    have hgate : ∀ sx, failMessage e0
        ∈ (handlerStep e0 sx (tryBody env.fetch st).ts st.old_status_homework []
            (tryBody env.fetch st).parseCalls).gated := by
      intro sx
      rcases handlerStep_cases e0 sx (tryBody env.fetch st).ts st.old_status_homework []
        (tryBody env.fetch st).parseCalls with ⟨_, hh⟩ | ⟨_, _, hh⟩ | ⟨e2, _, _, hh⟩ <;>
        rw [hh] <;> simp
    refine ⟨?_, ?_, fun e he => ?_⟩
    · rintro ⟨hok1, -⟩
      rw [hok1]
      rcases handlerStep_cases e0 .ok (tryBody env.fetch st).ts st.old_status_homework []
        (tryBody env.fetch st).parseCalls with ⟨_, hh⟩ | ⟨_, _, hh⟩ | ⟨e2, _, hse, hh⟩
      · rw [hh]; exact ⟨_, rfl⟩
      · rw [hh]; exact ⟨_, rfl⟩
      · exact absurd hse (by simp)
    · rcases handlerStep_cases e0 env.send1 (tryBody env.fetch st).ts st.old_status_homework []
        (tryBody env.fetch st).parseCalls with ⟨_, hh⟩ | ⟨_, _, hh⟩ | ⟨e2, _, _, hh⟩
      · rw [hh]; intro e st' h; exact absurd h (by simp)
      · rw [hh]; intro e st' h; exact absurd h (by simp)
      · rw [hh]
        intro e st' h
        simp only [CycleResult.halt.injEq] at h
        exact ⟨e2, h.1.symm⟩
    · rw [hmsg] at he
      simp only [Except.error.injEq] at he
      rw [← he]
      exact hgate env.send1

/-- Claim C4, witness: with a working notifier, a cycle whose fetch gets
HTTP 503 is caught, its failure message reaches the deduplication gate, and
the loop continues to the next cycle. -/
theorem c4_witness :
    (∃ st', (runCycle ⟨.success ⟨503, ENDPOINT, "err", .none⟩, .ok, .ok⟩ ⟨.int 5, ""⟩).result
      = .next st')
    ∧ failMessage (.httpResponseError ("Параметры запроса: " ++ ENDPOINT)
          "Статус ответа API: 503" "Контент ответа: err")
        ∈ (runCycle ⟨.success ⟨503, ENDPOINT, "err", .none⟩, .ok, .ok⟩ ⟨.int 5, ""⟩).gated :=
  ⟨(c4_loop_resilience ⟨.success ⟨503, ENDPOINT, "err", .none⟩, .ok, .ok⟩ ⟨.int 5, ""⟩).1
      ⟨rfl, rfl⟩,
   (c4_loop_resilience ⟨.success ⟨503, ENDPOINT, "err", .none⟩, .ok, .ok⟩ ⟨.int 5, ""⟩).2.2
      _ rfl⟩

theorem get_api_answer_200 (ts : PyVal) (r : HttpResponse) (h : r.status_code = 200) :
    get_api_answer ts (.success r) = .ok r.body := by
  simp [get_api_answer, h]

/-- Whatever happens after line 149, both a continuing and a halting cycle
carry the timestamp computed there into the resulting state. -/
theorem runCycle_timestamp (env : CycleEnv) (st : LoopState) :
    (resultState (runCycle env st).result).timestamp = (tryBody env.fetch st).ts := by
  rw [runCycle_eq]
  rcases gateStep_cases env.send1 env.send2 (tryBody env.fetch st) st.old_status_homework with
    ⟨m, _, _, heq⟩ | ⟨m, _, _, _, heq⟩ | ⟨m, e1, _, _, _, heq⟩ | ⟨e0, _, heq⟩
  · rw [heq]
    rfl
  · rw [heq]
    rfl
  · rw [heq]
    rcases handlerStep_cases (.telegramError ("Не удалось отправить сообщение из-за ошибки " ++ e1))
      env.send2 (tryBody env.fetch st).ts st.old_status_homework [m]
      (tryBody env.fetch st).parseCalls with ⟨_, hh⟩ | ⟨_, _, hh⟩ | ⟨e2, _, _, hh⟩ <;>
      rw [hh] <;> rfl
  · rw [heq]
    rcases handlerStep_cases e0 env.send1 (tryBody env.fetch st).ts st.old_status_homework []
      (tryBody env.fetch st).parseCalls with ⟨_, hh⟩ | ⟨_, _, hh⟩ | ⟨e2, _, _, hh⟩ <;>
      rw [hh] <;> rfl

/-- On a 200 response whose body is a mapping, line 149 sets the timestamp to
the response's `current_date` value, defaulting to the previous timestamp. -/
theorem tryBody_ts_dict (fetch : HttpOutcome) (st : LoopState) (r : HttpResponse)
    (d : List (String × PyVal)) (hf : fetch = .success r) (h200 : r.status_code = 200)
    (hb : r.body = .dict d) :
    (tryBody fetch st).ts = (d.lookup "current_date").getD st.timestamp := by
  subst hf
  unfold tryBody
  rw [get_api_answer_200 st.timestamp r h200, hb]
  dsimp only
  cases hcr : check_response (.dict d) with
  | error e => rfl
  | ok hs =>
    cases hs with
    | nil => rfl
    | cons hw hs' => cases hw <;> rfl

/-- Claim C3: in every cycle whose fetch returns a 200 mapping, the
poll-window is updated from the response's `current_date` right after the
fetch — before validation and status mapping, so the update survives any
later failure of the cycle (e.g. an unrecognized status) — and when
`current_date` is absent the poll-window keeps its previous value. -/
theorem c3_poll_window_update (env : CycleEnv) (st : LoopState) (r : HttpResponse)
    (d : List (String × PyVal)) (hf : env.fetch = .success r)
    (h200 : r.status_code = 200) (hb : r.body = .dict d) :
    (∀ c, d.lookup "current_date" = some c →
      (resultState (runCycle env st).result).timestamp = c)
    ∧ (d.lookup "current_date" = Option.none →
      (resultState (runCycle env st).result).timestamp = st.timestamp) := by
  have h1 := runCycle_timestamp env st
  have h2 := tryBody_ts_dict env.fetch st r d hf h200 hb
  constructor
  · intro c hc
    rw [h1, h2, hc]
    rfl
  · intro hc
    rw [h1, h2, hc]
    rfl

/-- Claim C3, witness: the spec's own scenario — a record with the bogus
status and `current_date = 2000` still advances the poll-window to 2000 even
though the cycle later fails on the unrecognized status; and a response
without `current_date` leaves the poll-window at its prior value 5. -/
theorem c3_witness :
    (resultState (runCycle
        ⟨.success ⟨200, ENDPOINT, "",
            .dict [("homeworks", .list [.dict [("homework_name", .str "hw2"), ("status", .str "bogus")]]),
                   ("current_date", .int 2000)]⟩, .ok, .ok⟩
        ⟨.int 5, ""⟩).result).timestamp = .int 2000
    ∧ (resultState (runCycle
        ⟨.success ⟨200, ENDPOINT, "", .dict [("homeworks", .list [])]⟩, .ok, .ok⟩
        ⟨.int 5, ""⟩).result).timestamp = .int 5 :=
  ⟨(c3_poll_window_update
      ⟨.success ⟨200, ENDPOINT, "",
          .dict [("homeworks", .list [.dict [("homework_name", .str "hw2"), ("status", .str "bogus")]]),
                 ("current_date", .int 2000)]⟩, .ok, .ok⟩
      ⟨.int 5, ""⟩
      ⟨200, ENDPOINT, "",
          .dict [("homeworks", .list [.dict [("homework_name", .str "hw2"), ("status", .str "bogus")]]),
                 ("current_date", .int 2000)]⟩
      [("homeworks", .list [.dict [("homework_name", .str "hw2"), ("status", .str "bogus")]]),
       ("current_date", .int 2000)]
      rfl rfl rfl).1 (.int 2000) rfl,
   (c3_poll_window_update
      ⟨.success ⟨200, ENDPOINT, "", .dict [("homeworks", .list [])]⟩, .ok, .ok⟩
      ⟨.int 5, ""⟩
      ⟨200, ENDPOINT, "", .dict [("homeworks", .list [])]⟩
      [("homeworks", .list [])]
      rfl rfl rfl).2 rfl⟩

/-- Claim C6: in every cycle whose validated `homeworks` sequence is empty,
the loop synthesizes the "no status change" message referencing the current
(already updated) poll-window value, `parse_status` is never invoked, and —
with a working notifier — the cycle raises nothing and continues. -/
theorem c6_empty_homeworks (env : CycleEnv) (st : LoopState) (r : HttpResponse)
    (d : List (String × PyVal)) (c : Int) (hf : env.fetch = .success r)
    (h200 : r.status_code = 200) (hb : r.body = .dict d)
    (hh : d.lookup "homeworks" = some (.list []))
    (hc : d.lookup "current_date" = some (.int c))
    (hs1 : env.send1 = .ok) :
    (runCycle env st).parseCalls = 0
    ∧ (runCycle env st).gated = [mkNoChange (toString c)]
    ∧ ∃ st', (runCycle env st).result = .next st' ∧ st'.timestamp = .int c := by
  have htb : tryBody env.fetch st = ⟨.int c, .ok (mkNoChange (toString c)), 0⟩ := by
    rw [hf]
    unfold tryBody
    rw [get_api_answer_200 st.timestamp r h200, hb]
    dsimp only
    rw [show check_response (.dict d) = .ok [] from by
      unfold check_response; dsimp only; rw [hh, hc]]
    dsimp only
    rw [hc]
    rfl
  rw [runCycle_eq, htb]
  rcases gateStep_cases env.send1 env.send2 ⟨.int c, .ok (mkNoChange (toString c)), 0⟩
      st.old_status_homework with
    ⟨m, hmsg, hm, heq⟩ | ⟨m, hmsg, hm, _, heq⟩ | ⟨m, e1, hmsg, hm, hse, heq⟩ | ⟨e0, hmsg, heq⟩
  · rw [heq]
    simp only [Except.ok.injEq] at hmsg
    exact ⟨rfl, by rw [← hmsg], ⟨_, rfl, rfl⟩⟩
  · rw [heq]
    simp only [Except.ok.injEq] at hmsg
    exact ⟨rfl, by rw [← hmsg], ⟨_, rfl, rfl⟩⟩
  · rw [hs1] at hse
    exact absurd hse (by simp)
  · exact absurd hmsg (by simp)

/-- Claim C6, witness: an empty `homeworks` list with `current_date = 1000`
produces exactly the "no change" message for window 1000, no `parse_status`
call, and a continuing cycle whose poll-window is 1000. -/
theorem c6_witness :
    (runCycle ⟨.success ⟨200, ENDPOINT, "",
        .dict [("homeworks", .list []), ("current_date", .int 1000)]⟩, .ok, .ok⟩
      ⟨.int 5, ""⟩).parseCalls = 0
    ∧ (runCycle ⟨.success ⟨200, ENDPOINT, "",
        .dict [("homeworks", .list []), ("current_date", .int 1000)]⟩, .ok, .ok⟩
      ⟨.int 5, ""⟩).gated
      = [mkNoChange (toString (1000 : Int))]
    ∧ ∃ st', (runCycle ⟨.success ⟨200, ENDPOINT, "",
        .dict [("homeworks", .list []), ("current_date", .int 1000)]⟩, .ok, .ok⟩
      ⟨.int 5, ""⟩).result = .next st' ∧ st'.timestamp = .int 1000 :=
  c6_empty_homeworks _ ⟨.int 5, ""⟩ _ _ 1000 rfl rfl rfl rfl rfl rfl

/-- Whether a stored Python value is an integer. -/
def isIntVal : PyVal → Bool
  | .int _ => true
  | _ => false

/-- The environment of a cycle reports `current_date`, when present at all,
as an integer — what a well-behaved server does and the code never checks. -/
def currentDateIntOk (env : CycleEnv) : Prop :=
  ∀ r d v, env.fetch = .success r → r.body = .dict d →
    d.lookup "current_date" = some v → isIntVal v = true

/-- Claim C8, counterexample: nothing validates the type of `current_date`,
so a response carrying the string `"oops"` there makes the cycle store that
string as the poll-window — the mutation does not preserve integrality. -/
theorem c8_counterexample :
    (resultState (runCycle ⟨.success ⟨200, ENDPOINT, "",
        .dict [("homeworks", .list [.dict [("homework_name", .str "hw"), ("status", .str "approved")]]),
               ("current_date", .str "oops")]⟩, .ok, .ok⟩
      ⟨.int 5, ""⟩).result).timestamp = .str "oops"
    ∧ isIntVal (resultState (runCycle ⟨.success ⟨200, ENDPOINT, "",
        .dict [("homeworks", .list [.dict [("homework_name", .str "hw"), ("status", .str "approved")]]),
               ("current_date", .str "oops")]⟩, .ok, .ok⟩
      ⟨.int 5, ""⟩).result).timestamp = false := by
  constructor
  · rfl
  · rfl

/-- Claim C8 (amended: the poll-window is initialized to an integer, and every
per-cycle mutation keeps it an integer provided the server-reported
`current_date`, when present, is an integer — the code never validates that
type, so a non-integer `current_date` is stored as-is): loop entry stores an
integer, and a cycle whose environment satisfies `currentDateIntOk` preserves
integrality of the poll-window. -/
theorem c8_poll_window_int (p t c : Option String) (now : Int) (env : CycleEnv)
    (st : LoopState) :
    (∀ st0, mainStartup p t c now = .started st0 → isIntVal st0.timestamp = true)
    ∧ (isIntVal st.timestamp = true → currentDateIntOk env →
      isIntVal (resultState (runCycle env st).result).timestamp = true) := by
  constructor
  · intro st0 h
    unfold mainStartup at h
    by_cases hct : check_tokens p t c
    · simp only [hct, if_true, MainStart.started.injEq] at h
      rw [← h]
      rfl
    · simp [hct] at h
  · intro hint hok
    rw [runCycle_timestamp]
    cases hf : env.fetch with
    | transportError e =>
      unfold tryBody
      rw [show get_api_answer st.timestamp (.transportError e) = .error (.connectionError
        ("Эндпоинт " ++ ENDPOINT ++ ", недоступен! Ошибка: " ++ (e ++ "."))) from rfl]
      exact hint
    | success r =>
      by_cases h200 : r.status_code = 200
      · cases hb : r.body with
        | dict d =>
          rw [tryBody_ts_dict (HttpOutcome.success r) st r d rfl h200 hb]
          cases hcd : d.lookup "current_date" with
          | none => exact hint
          | some v => exact hok r d v hf hb hcd
        | str s =>
          unfold tryBody
          rw [get_api_answer_200 st.timestamp r h200, hb]
          exact hint
        | int n =>
          unfold tryBody
          rw [get_api_answer_200 st.timestamp r h200, hb]
          exact hint
        | list l =>
          unfold tryBody
          rw [get_api_answer_200 st.timestamp r h200, hb]
          exact hint
        | none =>
          unfold tryBody
          rw [get_api_answer_200 st.timestamp r h200, hb]
          exact hint
      · unfold tryBody
        rw [show get_api_answer st.timestamp (.success r) = .error (.httpResponseError
            ("Параметры запроса: " ++ r.url) ("Статус ответа API: " ++ toString r.status_code)
            ("Контент ответа: " ++ r.text)) from by simp [get_api_answer, h200]]
        exact hint

/-- Claim C8, witness: from an integer poll-window, a cycle whose response
reports `current_date = 1000` ends with an integer poll-window. -/
theorem c8_witness :
    isIntVal (resultState (runCycle ⟨.success ⟨200, ENDPOINT, "",
        .dict [("homeworks", .list []), ("current_date", .int 1000)]⟩, .ok, .ok⟩
      ⟨.int 5, ""⟩).result).timestamp = true
    ∧ ∀ st0, mainStartup (some "a") (some "b") (some "c") 7 = .started st0 →
        isIntVal st0.timestamp = true := by
  constructor
  · exact (c8_poll_window_int (some "a") (some "b") (some "c") 7
      ⟨.success ⟨200, ENDPOINT, "", .dict [("homeworks", .list []), ("current_date", .int 1000)]⟩,
        .ok, .ok⟩ ⟨.int 5, ""⟩).2 rfl
      (fun r d v hr hd hv => by
        cases hr
        cases hd
        injection (show some (PyVal.int 1000) = some v from hv) with h
        rw [← h]
        rfl)
  · exact (c8_poll_window_int (some "a") (some "b") (some "c") 7
      ⟨.success ⟨200, ENDPOINT, "", .dict [("homeworks", .list []), ("current_date", .int 1000)]⟩,
        .ok, .ok⟩ ⟨.int 5, ""⟩).1

/-- A cycle that brings exactly one message to the deduplication gate,
completes normally and starts with a different last-sent text, sends exactly
that message and records it as the new last-sent text. -/
theorem runCycle_gate_ne (env : CycleEnv) (st : LoopState) (m : String) (st' : LoopState)
    (hg : (runCycle env st).gated = [m]) (hr : (runCycle env st).result = .next st')
    (hne : st.old_status_homework ≠ m) :
    (runCycle env st).sends = [m] ∧ st'.old_status_homework = m := by
  rw [runCycle_eq] at hg hr ⊢
  rcases gateStep_cases env.send1 env.send2 (tryBody env.fetch st) st.old_status_homework with
    ⟨m0, hmsg, hm, heq⟩ | ⟨m0, hmsg, hm, hs1, heq⟩ | ⟨m0, e1, hmsg, hm, hs1, heq⟩ | ⟨e0, hmsg, heq⟩
  · rw [heq] at hg
    simp only [List.cons.injEq, and_true] at hg
    exact absurd (hm.symm.trans hg) hne
  · rw [heq] at hg hr ⊢
    simp only [List.cons.injEq, and_true] at hg
    subst hg
    simp only [CycleResult.next.injEq] at hr
    exact ⟨rfl, by rw [← hr]⟩
  · rw [heq] at hg
    rcases handlerStep_cases (.telegramError ("Не удалось отправить сообщение из-за ошибки " ++ e1))
      env.send2 (tryBody env.fetch st).ts st.old_status_homework [m0]
      (tryBody env.fetch st).parseCalls with ⟨_, hh⟩ | ⟨_, _, hh⟩ | ⟨e2, _, _, hh⟩ <;>
      rw [hh] at hg <;> simp at hg
  · rw [heq] at hg hr ⊢
    rcases handlerStep_cases e0 env.send1 (tryBody env.fetch st).ts st.old_status_homework []
      (tryBody env.fetch st).parseCalls with ⟨hfe, hh⟩ | ⟨hfe, hs1, hh⟩ | ⟨e2, hfe, hs1, hh⟩
    · rw [hh] at hg
      simp only [List.nil_append, List.cons.injEq, and_true] at hg
      exact absurd (hfe.symm.trans hg) hne
    · rw [hh] at hg hr ⊢
      simp only [List.nil_append, List.cons.injEq, and_true] at hg
      subst hg
      simp only [CycleResult.next.injEq] at hr
      exact ⟨rfl, by rw [← hr]⟩
    · rw [hh] at hr
      exact absurd hr (by simp)

/-- A cycle that brings exactly one message to the deduplication gate,
completes normally and starts with that very text as the last-sent one,
sends nothing and keeps the last-sent text. -/
theorem runCycle_gate_eq (env : CycleEnv) (st : LoopState) (m : String) (st' : LoopState)
    (hg : (runCycle env st).gated = [m]) (hr : (runCycle env st).result = .next st')
    (hsame : st.old_status_homework = m) :
    (runCycle env st).sends = [] ∧ st'.old_status_homework = st.old_status_homework := by
  rw [runCycle_eq] at hg hr ⊢
  rcases gateStep_cases env.send1 env.send2 (tryBody env.fetch st) st.old_status_homework with
    ⟨m0, hmsg, hm, heq⟩ | ⟨m0, hmsg, hm, hs1, heq⟩ | ⟨m0, e1, hmsg, hm, hs1, heq⟩ | ⟨e0, hmsg, heq⟩
  · rw [heq] at hr ⊢
    simp only [CycleResult.next.injEq] at hr
    exact ⟨rfl, by rw [← hr]⟩
  · rw [heq] at hg
    simp only [List.cons.injEq, and_true] at hg
    exact absurd (hg.trans hsame.symm) hm
  · rw [heq] at hg
    rcases handlerStep_cases (.telegramError ("Не удалось отправить сообщение из-за ошибки " ++ e1))
      env.send2 (tryBody env.fetch st).ts st.old_status_homework [m0]
      (tryBody env.fetch st).parseCalls with ⟨_, hh⟩ | ⟨_, _, hh⟩ | ⟨e2, _, _, hh⟩ <;>
      rw [hh] at hg <;> simp at hg
  · rw [heq] at hg hr ⊢
    rcases handlerStep_cases e0 env.send1 (tryBody env.fetch st).ts st.old_status_homework []
      (tryBody env.fetch st).parseCalls with ⟨hfe, hh⟩ | ⟨hfe, hs1, hh⟩ | ⟨e2, hfe, hs1, hh⟩
    · rw [hh] at hr ⊢
      simp only [CycleResult.next.injEq] at hr
      exact ⟨rfl, by rw [← hr]⟩
    · rw [hh] at hg
      simp only [List.nil_append, List.cons.injEq, and_true] at hg
      exact absurd (hg.trans hsame.symm) hfe
    · rw [hh] at hr
      exact absurd hr (by simp)

/-- The sends of a two-cycle run are the two cycles' sends in order. -/
theorem runCycles_two (e1 e2 : CycleEnv) (st st1 : LoopState)
    (h1 : (runCycle e1 st).result = .next st1) :
    (runCycles [e1, e2] st).1 = (runCycle e1 st).sends ++ (runCycle e2 st1).sends := by
  cases h2 : (runCycle e2 st1).result <;>
    simp [runCycles, h1, h2]

/-- Claim C5, counterexample: two consecutive cycles that both produce the
"no status change" message for window 1000, starting from a state whose
last-sent text is already that same message (it was sent in an earlier
cycle): both cycles produce the same resulting message text, yet zero — not
exactly one — outbound notification calls are made. -/
theorem c5_counterexample :
    (runCycle ⟨.success ⟨200, ENDPOINT, "",
        .dict [("homeworks", .list []), ("current_date", .int 1000)]⟩, .ok, .ok⟩
      ⟨.int 5, mkNoChange "1000"⟩).gated = [mkNoChange "1000"]
    ∧ (runCycle ⟨.success ⟨200, ENDPOINT, "",
        .dict [("homeworks", .list []), ("current_date", .int 1000)]⟩, .ok, .ok⟩
      ⟨.int 1000, mkNoChange "1000"⟩).gated = [mkNoChange "1000"]
    ∧ (runCycle ⟨.success ⟨200, ENDPOINT, "",
        .dict [("homeworks", .list []), ("current_date", .int 1000)]⟩, .ok, .ok⟩
      ⟨.int 5, mkNoChange "1000"⟩).result = .next ⟨.int 1000, mkNoChange "1000"⟩
    ∧ (runCycles [⟨.success ⟨200, ENDPOINT, "",
          .dict [("homeworks", .list []), ("current_date", .int 1000)]⟩, .ok, .ok⟩,
        ⟨.success ⟨200, ENDPOINT, "",
          .dict [("homeworks", .list []), ("current_date", .int 1000)]⟩, .ok, .ok⟩]
      ⟨.int 5, mkNoChange "1000"⟩).1 = [] :=
  ⟨rfl, rfl, rfl, rfl⟩

/-- Claim C5 (amended: for two consecutive cycles that each bring exactly one
message to the deduplication gate and complete normally, and whose first
message differs from the last-sent text entering the pair — otherwise
deduplication already suppresses the first cycle too): if both cycles produce
the same message text, exactly one outbound notification call is made (the
second cycle only logs); if they produce different texts, exactly two calls
are made. -/
theorem c5_dedup (e1 e2 : CycleEnv) (st : LoopState) (m1 m2 : String)
    (st1 st2 : LoopState)
    (h1g : (runCycle e1 st).gated = [m1]) (h1r : (runCycle e1 st).result = .next st1)
    (h2g : (runCycle e2 st1).gated = [m2]) (h2r : (runCycle e2 st1).result = .next st2)
    (hfresh : st.old_status_homework ≠ m1) :
    (m1 = m2 → (runCycles [e1, e2] st).1 = [m1])
    ∧ (m1 ≠ m2 → (runCycles [e1, e2] st).1 = [m1, m2]) := by
  obtain ⟨hs1, ho1⟩ := runCycle_gate_ne e1 st m1 st1 h1g h1r hfresh
  rw [runCycles_two e1 e2 st st1 h1r, hs1]
  constructor
  · intro hmm
    obtain ⟨hs2, -⟩ := runCycle_gate_eq e2 st1 m2 st2 h2g h2r (ho1.trans hmm)
    rw [hs2]
    rfl
  · intro hmm
    obtain ⟨hs2, -⟩ := runCycle_gate_ne e2 st1 m2 st2 h2g h2r (by rw [ho1]; exact hmm)
    rw [hs2]
    rfl

/-- Claim C5, witness: from a fresh state, two cycles both yielding the
"no change for 1000" message trigger exactly one call, while a pair yielding
the 1000- and then the 2000-message triggers exactly two. -/
theorem c5_witness :
    (runCycles [⟨.success ⟨200, ENDPOINT, "",
          .dict [("homeworks", .list []), ("current_date", .int 1000)]⟩, .ok, .ok⟩,
        ⟨.success ⟨200, ENDPOINT, "",
          .dict [("homeworks", .list []), ("current_date", .int 1000)]⟩, .ok, .ok⟩]
      ⟨.int 5, ""⟩).1 = [mkNoChange "1000"]
    ∧ (runCycles [⟨.success ⟨200, ENDPOINT, "",
          .dict [("homeworks", .list []), ("current_date", .int 1000)]⟩, .ok, .ok⟩,
        ⟨.success ⟨200, ENDPOINT, "",
          .dict [("homeworks", .list []), ("current_date", .int 2000)]⟩, .ok, .ok⟩]
      ⟨.int 5, ""⟩).1 = [mkNoChange "1000", mkNoChange "2000"] :=
  ⟨(c5_dedup
      ⟨.success ⟨200, ENDPOINT, "", .dict [("homeworks", .list []), ("current_date", .int 1000)]⟩, .ok, .ok⟩
      ⟨.success ⟨200, ENDPOINT, "", .dict [("homeworks", .list []), ("current_date", .int 1000)]⟩, .ok, .ok⟩
      ⟨.int 5, ""⟩ (mkNoChange "1000") (mkNoChange "1000")
      ⟨.int 1000, mkNoChange "1000"⟩ ⟨.int 1000, mkNoChange "1000"⟩
      rfl rfl rfl rfl (by decide)).1 rfl,
   (c5_dedup
      ⟨.success ⟨200, ENDPOINT, "", .dict [("homeworks", .list []), ("current_date", .int 1000)]⟩, .ok, .ok⟩
      ⟨.success ⟨200, ENDPOINT, "", .dict [("homeworks", .list []), ("current_date", .int 2000)]⟩, .ok, .ok⟩
      ⟨.int 5, ""⟩ (mkNoChange "1000") (mkNoChange "2000")
      ⟨.int 1000, mkNoChange "1000"⟩ ⟨.int 2000, mkNoChange "2000"⟩
      rfl rfl rfl rfl (by decide)).2 (by decide)⟩

/-- Claim C10, counterexample: in a cycle whose status-message delivery
raises, the handler then successfully delivers the derived failure message
and stores it — so the stored last-notification string does change (from the
empty string to the failure text) in a cycle where the notifier raised,
contrary to the claim that it is left unchanged. -/
theorem c10_counterexample :
    (runCycle ⟨.success ⟨200, ENDPOINT, "",
        .dict [("homeworks", .list [.dict [("homework_name", .str "hw1"), ("status", .str "approved")]]),
               ("current_date", .int 1)]⟩, .err "boom", .ok⟩
      ⟨.int 0, ""⟩).sendFailed
      = ["Изменился статус проверки работы \"hw1\". Работа проверена: ревьюеру всё понравилось. Ура!"]
    ∧ (resultState (runCycle ⟨.success ⟨200, ENDPOINT, "",
        .dict [("homeworks", .list [.dict [("homework_name", .str "hw1"), ("status", .str "approved")]]),
               ("current_date", .int 1)]⟩, .err "boom", .ok⟩
      ⟨.int 0, ""⟩).result).old_status_homework
      = "Сбой в работе программы: Не удалось отправить сообщение из-за ошибки boom"
    ∧ "Сбой в работе программы: Не удалось отправить сообщение из-за ошибки boom" ≠ "" :=
  ⟨rfl, rfl, by decide⟩

/-- Claim C10 (amended: the deduplication state is updated only by successful
sends — a message whose delivery raises is never stored, so that text stays
eligible for the next cycle; after a failed status-message delivery, however,
the handler may successfully send the derived failure message, which is then
stored): the resulting last-notification is the previous one or a
successfully sent message, it never equals a message whose delivery raised,
and a halting cycle leaves it unchanged. -/
theorem c10_dedup_state (env : CycleEnv) (st : LoopState) :
    ((resultState (runCycle env st).result).old_status_homework = st.old_status_homework
      ∨ (resultState (runCycle env st).result).old_status_homework ∈ (runCycle env st).sentOk)
    ∧ (∀ m ∈ (runCycle env st).sendFailed,
        (resultState (runCycle env st).result).old_status_homework ≠ m)
    ∧ (∀ e st', (runCycle env st).result = .halt e st' →
        st'.old_status_homework = st.old_status_homework) := by
  rw [runCycle_eq]
  rcases gateStep_cases env.send1 env.send2 (tryBody env.fetch st) st.old_status_homework with
    ⟨m0, hmsg, hm, heq⟩ | ⟨m0, hmsg, hm, hs1, heq⟩ | ⟨m0, e1, hmsg, hm, hs1, heq⟩ | ⟨e0, hmsg, heq⟩
  · rw [heq]
    exact ⟨Or.inl rfl, by simp, by simp⟩
  · rw [heq]
    exact ⟨Or.inr (by simp [resultState]), by simp, by simp⟩
  · have htb : tryBody env.fetch st
        = ⟨(tryBody env.fetch st).ts, .ok m0, (tryBody env.fetch st).parseCalls⟩ := by
      rw [← hmsg]
    have hshape := tryBody_ok_shape env.fetch st (tryBody env.fetch st).ts m0
      (tryBody env.fetch st).parseCalls htb
    rw [heq]
    rcases handlerStep_cases (.telegramError ("Не удалось отправить сообщение из-за ошибки " ++ e1))
      env.send2 (tryBody env.fetch st).ts st.old_status_homework [m0]
      (tryBody env.fetch st).parseCalls with ⟨hfe, hh⟩ | ⟨hfe, hs2, hh⟩ | ⟨e2, hfe, hs2, hh⟩
    · rw [hh]
      refine ⟨Or.inl rfl, ?_, by simp⟩
      intro m hmem
      simp only [List.mem_singleton] at hmem
      subst hmem
      exact fun hcon => hm hcon.symm
    · rw [hh]
      refine ⟨Or.inr (by simp [resultState]), ?_, by simp⟩
      intro m hmem
      simp only [List.mem_singleton] at hmem
      subst hmem
      show failMessage _ ≠ m
      rcases hshape with ⟨dt, hdt⟩ | ⟨n, v, hnv⟩
      · rw [hdt]
        exact (mkNoChange_ne_fail dt _).symm
      · rw [hnv]
        exact (statusMessage_ne_fail n v _).symm
    · rw [hh]
      refine ⟨Or.inl rfl, ?_, ?_⟩
      · intro m hmem
        simp only [List.cons_append, List.nil_append, List.mem_cons, List.not_mem_nil,
          or_false] at hmem
        rcases hmem with hmem | hmem
        · subst hmem
          exact fun hcon => hm hcon.symm
        · subst hmem
          exact fun hcon => hfe hcon.symm
      · intro e st' h
        simp only [CycleResult.halt.injEq] at h
        rw [← h.2]
  · rw [heq]
    rcases handlerStep_cases e0 env.send1 (tryBody env.fetch st).ts st.old_status_homework []
      (tryBody env.fetch st).parseCalls with ⟨hfe, hh⟩ | ⟨hfe, hs1, hh⟩ | ⟨e2, hfe, hs1, hh⟩
    · rw [hh]
      exact ⟨Or.inl rfl, by simp, by simp⟩
    · rw [hh]
      exact ⟨Or.inr (by simp [resultState]), by simp, by simp⟩
    · rw [hh]
      refine ⟨Or.inl rfl, ?_, ?_⟩
      · intro m hmem
        simp only [List.nil_append, List.mem_singleton] at hmem
        subst hmem
        exact fun hcon => hfe hcon.symm
      · intro e st' h
        simp only [CycleResult.halt.injEq] at h
        rw [← h.2]

/-- Claim C10, witness: a cycle whose fetch hits a transport error and whose
failure-notification delivery then raises leaves the stored last-notification
untouched — in particular it never equals the failed failure-message text,
which stays eligible. -/
theorem c10_witness :
    ((resultState (runCycle ⟨.transportError "down", .err "x", .ok⟩
        ⟨.int 1, ""⟩).result).old_status_homework
      ≠ "Сбой в работе программы: Эндпоинт https://practicum.yandex.ru/api/user_api/homework_statuses/, недоступен! Ошибка: down.")
    ∧ (⟨.int 1, ""⟩ : LoopState).old_status_homework = "" :=
  ⟨(c10_dedup_state ⟨.transportError "down", .err "x", .ok⟩ ⟨.int 1, ""⟩).2.1 _ (by decide),
   (c10_dedup_state ⟨.transportError "down", .err "x", .ok⟩ ⟨.int 1, ""⟩).2.2
      (.telegramError "Не удалось отправить сообщение из-за ошибки x") ⟨.int 1, ""⟩ rfl⟩

end HomeworkBot
